import Mathlib

/-!
Shallow embedding of the sasa-fix-backend server (src/server/app.py,
src/server/models.py): data model, registration/login handlers, provider
read endpoints and the rating upsert-and-recompute handler, together with
verification of the specification's claims about them.

Machine conventions: SQLAlchemy tables become lists of rows; `filter_by(...)
.first()` becomes `List.find?`; ORM in-place updates become first-match list
rewrites; Python floats become rationals with Python's round-half-to-even
`round(x, nd)`; JSON values coerced by `int(...)` are modelled by `pyInt`.
-/

namespace SasaFix

/-! ### Python primitives -/

/-- Round-half-even of the fraction `a / b` (for `b > 0`), computed on
integers: the quotient, its successor, or — at an exact half — whichever
of the two is even. This is Python's `round` on exact values. -/
def rheInt (a : ℤ) (b : ℕ) : ℤ :=
  let n := a.fdiv b
  let r := a - n * b
  if 2 * r < (b : ℤ) then n
  else if (b : ℤ) < 2 * r then n + 1
  else if n % 2 = 0 then n else n + 1

/-- Python `round(q, nd)`: round to `nd` decimal places, half to even,
idealised to exact rational arithmetic. -/
def pyRound (nd : ℕ) (q : ℚ) : ℚ :=
  mkRat (rheInt (q.num * (10 ^ nd : ℕ)) q.den) (10 ^ nd)

/-- Python `int(f)` on a float: truncation toward zero. -/
def pytrunc (q : ℚ) : ℤ := q.num.tdiv q.den

/-- ASCII whitespace, the characters Python's `str.strip()` removes. -/
def isSpaceChar (c : Char) : Bool :=
  c == ' ' || c == '\t' || c == '\n' || c == '\r'

/-- Python `s.strip()`: remove leading and trailing whitespace. -/
def pyStrip (s : String) : String :=
  ⟨((s.data.dropWhile isSpaceChar).reverse.dropWhile isSpaceChar).reverse⟩

/-- Python `s.lower()` (restricted to its ASCII behaviour). -/
def pyLower (s : String) : String := ⟨s.data.map Char.toLower⟩

/-- A JSON scalar as Python receives it in a request body (JSON `null`
is folded into the absent case at the call sites, since `dict.get`
yields `None` for both). -/
inductive JVal where
  | jint (n : ℤ)
  | jfloat (q : ℚ)
  | jstr (s : String)
  | jbool (b : Bool)
deriving DecidableEq

/-- Value of a nonempty all-digit character list, `none` otherwise. -/
def digitsVal? (cs : List Char) : Option ℕ :=
  if cs ≠ [] ∧ cs.all (·.isDigit) then
    some (cs.foldl (fun a c => 10 * a + (c.toNat - 48)) 0)
  else none

/-- Python `int(s)` on a string: optional sign then decimal digits
(after stripping surrounding whitespace), `ValueError` otherwise. -/
def strToInt? (s : String) : Option ℤ :=
  match (pyStrip s).data with
  | '-' :: rest => (digitsVal? rest).map (fun n => -(n : ℤ))
  | '+' :: rest => (digitsVal? rest).map (fun n => (n : ℤ))
  | cs => (digitsVal? cs).map (fun n => (n : ℤ))

/-- Python `int(v)` applied to a decoded JSON scalar: integers pass through,
floats truncate toward zero, strings parse as decimal integers or raise
`ValueError`, booleans coerce to 0/1 (`bool` is an `int` subclass). -/
def pyInt : JVal → Option ℤ
  | .jint n => some n
  | .jfloat q => some (pytrunc q)
  | .jstr s => strToInt? s
  | .jbool b => some (if b then 1 else 0)

/-- Python truthiness test `not x` for an optional string: true when the
key is absent (`None`) or the string is empty. -/
def falsy : Option String → Bool
  | none => true
  | some s => s == ""

/-- The handlers' email normalisation `email.lower().strip()`. -/
def normEmail (s : String) : String := pyStrip (pyLower s)

/-! ### External collaborators -/

/-- Modelled from the spec: werkzeug's `generate_password_hash` (external
library, not under src/) — a one-way salted hash; abstracted as an injective
deterministic encoding so that verification-by-comparison is expressible. -/
def generate_password_hash (password : String) : String := "pbkdf2$" ++ password

/-- Modelled from the spec: werkzeug's `check_password_hash` (external
library, not under src/) — verification is a hash comparison. -/
def check_password_hash (hash password : String) : Bool :=
  hash == generate_password_hash password

/-- Modelled from the spec: a flask_jwt_extended bearer token (external
library, not under src/) — a signed, time-limited credential bound to the
Account identifier; signature and expiry are abstracted away. -/
structure Token where
  identity : ℕ
deriving DecidableEq

/-- Modelled from the spec: `create_access_token(identity=uid)`. -/
def create_access_token (uid : ℕ) : Token := ⟨uid⟩

/-- Modelled from the spec: `get_jwt_identity()` recovers the bound
Account identifier from the presented token. -/
def get_jwt_identity (t : Token) : ℕ := t.identity

/-! ### Data model (src/server/models.py) -/

/-- A row of the `users` table (models.py `User`). The `role` column is
`Option` because `auth_register` constructs users without assigning one. -/
structure User where
  id : ℕ
  name : String
  email : String
  password_hash : String
  role : Option String
  service_type : Option String
  location : Option String
  phone : Option String
deriving DecidableEq

/-- A row of the `ratings` table (models.py `Rating`). -/
structure Rating where
  id : ℕ
  provider_id : ℕ
  user_id : ℕ
  score : ℤ
  comment : String
deriving DecidableEq

/-- Modelled from the spec: the `ServiceProvider` table referenced by
app.py (`seed_providers`, `get_providers`, `get_provider`, `rate_provider`)
but absent from src/server/models.py — a provider row with service info and
a stored aggregate `rating` column (NULL until first recomputation). -/
structure ServiceProvider where
  id : ℕ
  name : String
  service_type : String
  location : String
  phone : String
  rating : Option ℚ
deriving DecidableEq

/-- The relational store: the two user-facing tables of models.py plus the
spec-modelled provider table. -/
structure DB where
  users : List User
  providers : List ServiceProvider
  ratings : List Rating
deriving DecidableEq

/-- Autoincrement primary key for the `users` table: above every existing id. -/
def nextUserId (us : List User) : ℕ :=
  us.foldr (fun u a => max u.id a) 0 + 1

/-- Autoincrement primary key for the `ratings` table. -/
def nextRatingId (rs : List Rating) : ℕ :=
  rs.foldr (fun r a => max r.id a) 0 + 1

/-! ### Handlers (src/server/app.py) -/

/-- Outcome of `POST /auth/register`. `modelError` is an uncaught
`ValueError` raised by a models.py validator or by `set_password`. -/
inductive RegOutcome where
  | created (user : User)
  | badRequest (msg : String)
  | conflict (msg : String)
  | modelError (msg : String)
deriving DecidableEq

/-- Request body of `POST /auth/register`. All keys a caller might send are
carried so that it is expressible which of them the handler reads. -/
structure RegisterBody where
  name : Option String
  email : Option String
  password : Option String
  role : Option String
  service_type : Option String
  location : Option String
  phone : Option String
deriving DecidableEq

/-- app.py `auth_register` (lines 57–79): requires name, email, password;
rejects an already-registered normalised email with 409; constructs a
`User` from name and email only (validators fire on assignment: the email
must contain an `@`) and sets the password (at least 6 characters);
commits the new row. The `role`, `service_type`, `location` and `phone`
keys of the body are never read. -/
def auth_register (db : DB) (b : RegisterBody) : RegOutcome × DB :=
  if falsy b.name || falsy b.email || falsy b.password then
    (.badRequest "name, email and password are required", db)
  else
    let e := normEmail (b.email.getD "")
    if db.users.any (fun u => u.email == e) then
      (.conflict "email already registered", db)
    else if '@' ∉ e.data then
      (.modelError "Invalid email format", db)
    else if (b.password.getD "").length < 6 then
      (.modelError "Password must be at least 6 characters.", db)
    else
      let u : User :=
        { id := nextUserId db.users
          name := pyStrip (b.name.getD "")
          email := e
          password_hash := generate_password_hash (b.password.getD "")
          role := none, service_type := none, location := none, phone := none }
      (.created u, { db with users := db.users ++ [u] })

/-- Outcome of `POST /auth/login`. -/
inductive LoginOutcome where
  | badRequest (msg : String)
  | unauthorized (msg : String)
  | ok (token : Token) (user : User)
deriving DecidableEq

/-- app.py `auth_login` (lines 81–99): requires email and password; looks
up the account by normalised email; answers 401 "invalid credentials" both
when no account exists and when the password hash does not match; on
success issues a token bound to the account id. -/
def auth_login (db : DB) (email password : Option String) : LoginOutcome :=
  if falsy email || falsy password then
    .badRequest "email and password are required"
  else
    match db.users.find? (fun u => u.email == normEmail (email.getD "")) with
    | none => .unauthorized "invalid credentials"
    | some u =>
      if check_password_hash u.password_hash (password.getD "") then
        .ok (create_access_token u.id) u
      else .unauthorized "invalid credentials"

/-- app.py `users_me` (lines 101–106): resolve the session token to an
account id and fetch that account (404 when gone, modelled as `none`). -/
def users_me (db : DB) (t : Token) : Option User :=
  db.users.find? (fun u => u.id == get_jwt_identity t)

/-- One review entry of the `GET /providers/{id}` response
(app.py line 153). -/
structure ReviewView where
  id : ℕ
  score : ℤ
  comment : String
  user_id : ℕ
deriving DecidableEq

/-- The `GET /providers/{id}` response body (app.py lines 145–156). -/
structure ProviderView where
  id : ℕ
  name : String
  service_type : String
  location : String
  phone : String
  rating : ℚ
  reviews : List ReviewView
deriving DecidableEq

/-- app.py `get_provider` (lines 142–156): 404 when the id is not in the
provider table; otherwise the provider's public fields, the stored rating
(`or 0.0` when NULL) and its received ratings as review entries. -/
def get_provider (db : DB) (pid : ℕ) : Option ProviderView :=
  match db.providers.find? (fun p => p.id == pid) with
  | none => none
  | some p =>
    some { id := p.id, name := p.name, service_type := p.service_type
           location := p.location, phone := p.phone
           rating := p.rating.getD 0
           reviews := (db.ratings.filter (fun r => r.provider_id == p.id)).map
             (fun r => { id := r.id, score := r.score
                         comment := r.comment, user_id := r.user_id }) }

/-- Mean of the scores of a rating set, `0` for the empty set
(app.py lines 202–205). -/
def meanQ (scores : List ℤ) : ℚ :=
  if scores = [] then 0 else mkRat scores.sum scores.length

/-- In-place ORM update of the first rating row matching the
(provider, rater) key (app.py lines 188–192). -/
def updateRating (pid uid : ℕ) (n : ℤ) (c : String) : List Rating → List Rating
  | [] => []
  | r :: rs =>
    if r.provider_id == pid && r.user_id == uid then
      { r with score := n, comment := c } :: rs
    else r :: updateRating pid uid n c rs

/-- In-place ORM update of the stored aggregate on the first provider row
with the given id (app.py line 206). -/
def setProviderRating (pid : ℕ) (v : ℚ) : List ServiceProvider → List ServiceProvider
  | [] => []
  | p :: ps =>
    if p.id == pid then { p with rating := some v } :: ps
    else p :: setProviderRating pid v ps

/-- Outcome of `POST /providers/{id}/rating`. -/
inductive RateOutcome where
  | created (rating : ℚ)
  | badRequest (msg : String)
  | notFound
deriving DecidableEq

/-- app.py `rate_provider` (lines 160–209): validate the score (`None` →
400; `int(...)` coercion failure → 400; out of [1,5] → 400), look up the
provider (404 when absent), upsert the (provider, rater) rating row, then
recompute the provider's stored aggregate as the mean of the current
rating rows for that provider rounded to 2 decimal places, and return it.
`uid` is the identity resolved from the bearer token. -/
def rate_provider (db : DB) (pid uid : ℕ) (score : Option JVal) (comment : String) :
    RateOutcome × DB :=
  match score with
  | none => (.badRequest "score is required (1-5)", db)
  | some v =>
    match pyInt v with
    | none => (.badRequest "score must be an integer between 1 and 5", db)
    | some n =>
      if n < 1 ∨ 5 < n then (.badRequest "score must be between 1 and 5", db)
      else
        match db.providers.find? (fun p => p.id == pid) with
        | none => (.notFound, db)
        | some p =>
          let rs :=
            if db.ratings.any (fun r => r.provider_id == p.id && r.user_id == uid) then
              updateRating p.id uid n comment db.ratings
            else
              db.ratings ++
                [{ id := nextRatingId db.ratings, provider_id := p.id
                   user_id := uid, score := n, comment := comment }]
          let avg := meanQ ((rs.filter (fun r => r.provider_id == p.id)).map (·.score))
          let newRating := pyRound 2 avg
          (.created newRating,
           { db with ratings := rs
                     providers := setProviderRating p.id newRating db.providers })

/-- The aggregate exactly as `rate_provider` recomputes it from a score
list (app.py lines 200–206): mean, 0 when empty, rounded to 2 decimals. -/
def appAggregate (scores : List ℤ) : ℚ := pyRound 2 (meanQ scores)

/-- The aggregate exactly as the models.py `User.rating` property computes
it (lines 83–88): 0 when no ratings were received, otherwise the mean
rounded to 1 decimal place. -/
def modelAggregate (scores : List ℤ) : ℚ :=
  if scores = [] then 0 else pyRound 1 (mkRat scores.sum scores.length)

/-- models.py `User.rating` applied to the rows a user received as
provider. -/
def userRating (db : DB) (u : User) : ℚ :=
  modelAggregate ((db.ratings.filter (fun r => r.provider_id == u.id)).map (·.score))


/-- The registered user record, as `auth_register` constructs it. -/
def registeredUser (db : DB) (b : RegisterBody) : User :=
  { id := nextUserId db.users
    name := pyStrip (b.name.getD "")
    email := normEmail (b.email.getD "")
    password_hash := generate_password_hash (b.password.getD "")
    role := none, service_type := none, location := none, phone := none }

/-- Number of rating rows keyed by a (provider, rater) pair. -/
def countPR (rs : List Rating) (p u : ℕ) : ℕ :=
  (rs.filter (fun r => r.provider_id == p && r.user_id == u)).length

/-! ### Concrete stores and request bodies used to instantiate the claims -/

/-- The empty store. -/
def emptyDB : DB := { users := [], providers := [], ratings := [] }

/-- Provider 7 with two ratings, scores 5 and 4. -/
def dbC1 : DB :=
  { users := []
    providers := [{ id := 7, name := "Spark Electricals", service_type := "electrician",
                    location := "Thika", phone := "0712345678", rating := none }]
    ratings := [{ id := 1, provider_id := 7, user_id := 20, score := 5, comment := "x" },
                { id := 2, provider_id := 7, user_id := 21, score := 4, comment := "y" }] }

/-- The store after user 22 submits score 3 for provider 7 in `dbC1`. -/
def dbC1' : DB :=
  { users := []
    providers := [{ id := 7, name := "Spark Electricals", service_type := "electrician",
                    location := "Thika", phone := "0712345678", rating := some 4 }]
    ratings := [{ id := 1, provider_id := 7, user_id := 20, score := 5, comment := "x" },
                { id := 2, provider_id := 7, user_id := 21, score := 4, comment := "y" },
                { id := 3, provider_id := 7, user_id := 22, score := 3, comment := "z" }] }

/-- Provider 7 already rated once by user 20. -/
def dbC2 : DB :=
  { users := []
    providers := [{ id := 7, name := "Spark Electricals", service_type := "electrician",
                    location := "Thika", phone := "0712345678", rating := none }]
    ratings := [{ id := 1, provider_id := 7, user_id := 20, score := 4, comment := "first" }] }

/-- The store after user 20 resubmits score 2 for provider 7 in `dbC2`. -/
def dbC2' : DB :=
  { users := []
    providers := [{ id := 7, name := "Spark Electricals", service_type := "electrician",
                    location := "Thika", phone := "0712345678", rating := some 2 }]
    ratings := [{ id := 1, provider_id := 7, user_id := 20, score := 2, comment := "second" }] }

/-- A store with one provider and no ratings, for the score validation path. -/
def dbC3 : DB :=
  { users := []
    providers := [{ id := 1, name := "John Mechanic", service_type := "mechanic",
                    location := "Kinoo", phone := "+254712345678", rating := none }]
    ratings := [] }

/-- A registration body whose role is neither client nor provider. -/
def regBodyBadRole : RegisterBody :=
  { name := some "Ann", email := some "ann@x.com", password := some "secret1"
    role := some "admin", service_type := none, location := none, phone := none }

/-- A registration body with no password. -/
def regBodyNoPw : RegisterBody :=
  { name := some "Bo", email := some "bo@x.com", password := none
    role := some "client", service_type := none, location := none, phone := none }

/-- A registration body whose email has no at-sign. -/
def regBodyBadEmail : RegisterBody :=
  { name := some "Cy", email := some "cyx.com", password := some "secret1"
    role := some "client", service_type := none, location := none, phone := none }

/-- A registration body with a five-character password. -/
def regBodyShortPw : RegisterBody :=
  { name := some "Dee", email := some "dee@x.com", password := some "abcde"
    role := some "client", service_type := none, location := none, phone := none }

/-- A valid registration body claiming the provider role without a phone. -/
def regBodyOk : RegisterBody :=
  { name := some "Eve", email := some "Eve@X.com", password := some "secret1"
    role := some "provider", service_type := some "cleaning", location := none, phone := none }

/-- A registration body reusing the email of the account in `dbC5a`. -/
def regBodyConflict : RegisterBody :=
  { name := some "Gil", email := some "Alice@X.com", password := some "secret1"
    role := some "client", service_type := none, location := none, phone := none }

/-- One provider with a single rating by user 10, who is named Alice. -/
def dbC5a : DB :=
  { users := [{ id := 10, name := "Alice", email := "alice@x.com",
                password_hash := "pbkdf2$alice123", role := none,
                service_type := none, location := none, phone := none }]
    providers := [{ id := 1, name := "FixIt Plumbing", service_type := "plumbing",
                    location := "Nairobi", phone := "0700123456", rating := some 5 }]
    ratings := [{ id := 1, provider_id := 1, user_id := 10, score := 5, comment := "great" }] }

/-- The same store with the rater renamed to Bob. -/
def dbC5b : DB :=
  { users := [{ id := 10, name := "Bob", email := "alice@x.com",
                password_hash := "pbkdf2$alice123", role := none,
                service_type := none, location := none, phone := none }]
    providers := [{ id := 1, name := "FixIt Plumbing", service_type := "plumbing",
                    location := "Nairobi", phone := "0700123456", rating := some 5 }]
    ratings := [{ id := 1, provider_id := 1, user_id := 10, score := 5, comment := "great" }] }

/-- The provider view `get_provider` returns for provider 1 of `dbC5a`. -/
def viewC5 : ProviderView :=
  { id := 1, name := "FixIt Plumbing", service_type := "plumbing"
    location := "Nairobi", phone := "0700123456", rating := 5
    reviews := [{ id := 1, score := 5, comment := "great", user_id := 10 }] }

/-- A first registration body with a mixed-case email. -/
def bFirst : RegisterBody :=
  { name := some "Ann", email := some "A@x.com", password := some "secret1"
    role := none, service_type := none, location := none, phone := none }

/-- The account `bFirst` creates in the empty store. -/
def uFirst : User :=
  { id := 1, name := "Ann", email := "a@x.com", password_hash := "pbkdf2$secret1"
    role := none, service_type := none, location := none, phone := none }

/-- The store after registering `bFirst` in the empty store. -/
def dbFirst : DB := { users := [uFirst], providers := [], ratings := [] }

/-- A second registration body whose email differs from `bFirst` only in
letter case. -/
def bSecond : RegisterBody :=
  { name := some "Ben", email := some "a@X.COM", password := some "secret2"
    role := none, service_type := none, location := none, phone := none }

/-- A registration body for the login round trip. -/
def bReg7 : RegisterBody :=
  { name := some "Carol", email := some "carol@x.com", password := some "secret7"
    role := none, service_type := none, location := none, phone := none }

/-- The account `bReg7` creates in the empty store. -/
def uReg7 : User :=
  { id := 1, name := "Carol", email := "carol@x.com", password_hash := "pbkdf2$secret7"
    role := none, service_type := none, location := none, phone := none }

/-- The store after registering `bReg7` in the empty store. -/
def dbReg7 : DB := { users := [uReg7], providers := [], ratings := [] }

/-- A stored account used for the login failure comparison. -/
def aliceUser : User :=
  { id := 1, name := "Alice", email := "alice@x.com"
    password_hash := "pbkdf2$alice123", role := none
    service_type := none, location := none, phone := none }

/-- A store holding only `aliceUser`. -/
def dbC9 : DB := { users := [aliceUser], providers := [], ratings := [] }

/-- A registration body that supplies every optional key. -/
def bodyWithRole : RegisterBody :=
  { name := some "Fay", email := some "fay@x.com", password := some "secret1"
    role := some "provider", service_type := some "plumbing"
    location := some "Nairobi", phone := some "0700123456" }

/-- The same credentials with no optional keys. -/
def bodyNoRole : RegisterBody :=
  { name := some "Fay", email := some "fay@x.com", password := some "secret1"
    role := none, service_type := none, location := none, phone := none }

/-- The account either of `bodyWithRole` and `bodyNoRole` creates. -/
def uReg10 : User :=
  { id := 1, name := "Fay", email := "fay@x.com", password_hash := "pbkdf2$secret1"
    role := none, service_type := none, location := none, phone := none }

/-- The store after registering `bodyWithRole` in the empty store. -/
def dbReg10 : DB := { users := [uReg10], providers := [], ratings := [] }

/-! ### Supporting lemmas -/

/-! ### Rounding lemmas -/

theorem rheInt_mul_cancel (k : ℤ) (b : ℕ) (hb : 0 < b) : rheInt (k * b) b = k := by
  have hb' : (b : ℤ) ≠ 0 := by exact_mod_cast hb.ne'
  have hbpos : (0 : ℤ) < b := by exact_mod_cast hb
  simp only [rheInt, Int.mul_fdiv_cancel k hb', sub_self, mul_zero]
  rw [if_pos hbpos]

/-- Rounding to `nd` decimal places is the identity on rationals whose
denominator divides `10 ^ nd`. -/
theorem pyRound_eq_self (nd : ℕ) (q : ℚ) (h : q.den ∣ 10 ^ nd) : pyRound nd q = q := by
  obtain ⟨m, hm⟩ := h
  have hden : 0 < q.den := q.den_pos
  have hm0 : 0 < m := by
    rcases Nat.eq_zero_or_pos m with h0 | h0
    · rw [h0, Nat.mul_zero] at hm
      exact absurd hm (by positivity)
    · exact h0
  have ha : q.num * ((10 ^ nd : ℕ) : ℤ) = (q.num * m) * q.den := by
    rw [hm]; push_cast; ring
  unfold pyRound
  rw [ha, rheInt_mul_cancel _ _ hden, Rat.mkRat_eq_div]
  have hm' : ((m : ℚ)) ≠ 0 := by exact_mod_cast hm0.ne'
  rw [hm]
  push_cast
  rw [mul_comm (q.den : ℚ) (m : ℚ), mul_comm ((q.num : ℚ)) (m : ℚ),
      mul_div_mul_left _ _ hm', Rat.num_div_den]

/-! ### Registration lemmas -/

theorem auth_register_created {db : DB} {b : RegisterBody} {u : User} {db' : DB}
    (h : auth_register db b = (.created u, db')) :
    falsy b.name = false ∧ falsy b.email = false ∧ falsy b.password = false ∧
    db.users.any (fun w => w.email == normEmail (b.email.getD "")) = false ∧
    '@' ∈ (normEmail (b.email.getD "")).data ∧
    ¬ (b.password.getD "").length < 6 ∧
    u = registeredUser db b ∧
    db' = { db with users := db.users ++ [u] } := by
  by_cases h1 : (falsy b.name || falsy b.email || falsy b.password) = true
  · simp [auth_register, h1] at h
  · rw [Bool.not_eq_true] at h1
    by_cases h2 : (db.users.any fun w => w.email == normEmail (b.email.getD "")) = true
    · simp [auth_register, h1, h2] at h
    · rw [Bool.not_eq_true] at h2
      by_cases h3 : '@' ∈ (normEmail (b.email.getD "")).data
      · by_cases h4 : (b.password.getD "").length < 6
        · simp [auth_register, h1, h2, h3, h4] at h
        · simp only [auth_register, h1, h2, h3, h4, Bool.false_eq_true, if_false,
            not_true_eq_false, not_false_eq_true, if_true, Prod.mk.injEq,
            RegOutcome.created.injEq] at h
          obtain ⟨hu, hdb⟩ := h
          have h1' := h1
          simp only [Bool.or_eq_false_iff] at h1'
          obtain ⟨⟨hn, he⟩, hp⟩ := h1'
          refine ⟨hn, he, hp, h2, h3, h4, hu.symm, ?_⟩
          rw [← hdb, ← hu]
      · simp [auth_register, h1, h2, h3] at h

theorem mem_id_lt_nextUserId {us : List User} {u : User} (hu : u ∈ us) :
    u.id < nextUserId us := by
  have : u.id ≤ us.foldr (fun w a => max w.id a) 0 := by
    induction us with
    | nil => cases hu
    | cons v vs ih =>
      rcases hu with _ | hu
      · simp [List.foldr]
      · exact le_trans (ih (by assumption)) (by simp [List.foldr])
  unfold nextUserId
  omega

theorem find?_append_of_none {α : Type} {p : α → Bool} {xs : List α} (ys : List α)
    (h : xs.find? p = none) : (xs ++ ys).find? p = ys.find? p := by
  rw [List.find?_append, h, Option.none_or]

/-! ### Rating ledger lemmas -/

theorem countPR_updateRating (rs : List Rating) (pid uid : ℕ) (n : ℤ) (c : String)
    (p u : ℕ) : countPR (updateRating pid uid n c rs) p u = countPR rs p u := by
  induction rs with
  | nil => rfl
  | cons r tl ih =>
    by_cases h : (r.provider_id == pid && r.user_id == uid) = true
    · simp only [updateRating, h, if_true, countPR, List.filter]
      cases hm : (r.provider_id == p && r.user_id == u) <;> simp [hm]
    · simp only [updateRating, h, if_false, Bool.false_eq_true, countPR, List.filter]
      cases hm : (r.provider_id == p && r.user_id == u) <;>
        simpa [countPR, hm] using ih

theorem countPR_append (rs ts : List Rating) (p u : ℕ) :
    countPR (rs ++ ts) p u = countPR rs p u + countPR ts p u := by
  simp [countPR, List.filter_append]

theorem countPR_eq_zero {rs : List Rating} {p u : ℕ}
    (h : rs.any (fun r => r.provider_id == p && r.user_id == u) = false) :
    countPR rs p u = 0 := by
  rw [countPR, List.length_eq_zero, List.filter_eq_nil_iff]
  rw [List.any_eq_false] at h
  exact h

theorem countPR_pos {rs : List Rating} {p u : ℕ}
    (h : rs.any (fun r => r.provider_id == p && r.user_id == u) = true) :
    0 < countPR rs p u := by
  rw [List.any_eq_true] at h
  obtain ⟨r, hr, hkey⟩ := h
  have : r ∈ rs.filter (fun r => r.provider_id == p && r.user_id == u) :=
    List.mem_filter.mpr ⟨hr, hkey⟩
  have := List.length_pos.mpr (List.ne_nil_of_mem this)
  simpa [countPR] using this

theorem updateRating_key_mem {rs : List Rating} {pid uid : ℕ} {n : ℤ} {c : String}
    (hcount : countPR rs pid uid ≤ 1) :
    ∀ r ∈ updateRating pid uid n c rs, r.provider_id = pid → r.user_id = uid →
      r.score = n ∧ r.comment = c := by
  induction rs with
  | nil => intro r hr; cases hr
  | cons r0 tl ih =>
    by_cases h : (r0.provider_id == pid && r0.user_id == uid) = true
    · intro r hr hp hu
      rw [updateRating, if_pos h] at hr
      rcases List.mem_cons.mp hr with heq | htl
      · rw [heq]; exact ⟨rfl, rfl⟩
      · exfalso
        have htlz : countPR tl pid uid = 0 := by
          have : countPR (r0 :: tl) pid uid = countPR tl pid uid + 1 := by
            simp [countPR, List.filter, h]
          omega
        rw [countPR, List.length_eq_zero, List.filter_eq_nil_iff] at htlz
        exact htlz r htl (by simp [hp, hu])
    · intro r hr hp hu
      rw [updateRating, if_neg h] at hr
      rcases List.mem_cons.mp hr with hveq | htl
      · exfalso
        subst hveq
        exact h (by simp [hp, hu])
      · have htlcount : countPR tl pid uid ≤ 1 := by
          have : countPR (r0 :: tl) pid uid = countPR tl pid uid := by
            simp [countPR, List.filter, h]
          omega
        exact ih htlcount r htl hp hu

theorem find?_setProviderRating (pid : ℕ) (v : ℚ) (ps : List ServiceProvider) :
    (setProviderRating pid v ps).find? (fun x => x.id == pid) =
      (ps.find? (fun x => x.id == pid)).map (fun p => { p with rating := some v }) := by
  induction ps with
  | nil => rfl
  | cons p ps ih =>
    by_cases h : (p.id == pid) = true
    · simp [setProviderRating, h, List.find?_cons]
    · simp [setProviderRating, h, List.find?_cons, ih]

/-- Inversion of a successful rate_provider call. -/
theorem rate_provider_created {db : DB} {pid uid : ℕ} {v : Option JVal} {c : String}
    {q : ℚ} {db' : DB} (h : rate_provider db pid uid v c = (.created q, db')) :
    ∃ w n p, v = some w ∧ pyInt w = some n ∧ ¬(n < 1 ∨ 5 < n) ∧
      db.providers.find? (fun x => x.id == pid) = some p ∧
      db'.users = db.users ∧
      db'.ratings = (if db.ratings.any (fun r => r.provider_id == p.id && r.user_id == uid)
                     then updateRating p.id uid n c db.ratings
                     else db.ratings ++ [{ id := nextRatingId db.ratings, provider_id := p.id,
                                           user_id := uid, score := n, comment := c }]) ∧
      q = pyRound 2 (meanQ ((db'.ratings.filter (fun r => r.provider_id == p.id)).map (·.score))) ∧
      db'.providers = setProviderRating p.id q db.providers := by
  cases v with
  | none => simp [rate_provider] at h
  | some w =>
    cases hn : pyInt w with
    | none => simp [rate_provider, hn] at h
    | some n =>
      by_cases hr : n < 1 ∨ 5 < n
      · simp [rate_provider, hn, hr] at h
      · cases hp : db.providers.find? (fun x => x.id == pid) with
        | none => simp [rate_provider, hn, hr, hp] at h
        | some p =>
          simp only [rate_provider, hn, hr, hp, if_false, Prod.mk.injEq,
            RateOutcome.created.injEq] at h
          obtain ⟨hq, hdb⟩ := h
          refine ⟨w, n, p, rfl, hn, hr, rfl, by rw [← hdb], ?_, ?_, ?_⟩
          · rw [← hdb]
          · rw [← hdb, ← hq]
          · rw [← hdb, ← hq]

/-! ### The claims -/

/-- Claim C4 (amended): auth_register rejects only missing name/email/password
(400), a taken normalised email (409), an email without an at-sign, and a
password shorter than 6 characters (uncaught model ValueErrors); the role,
service_type, location and phone keys are never read, so an unknown role or a
missing provider phone causes no error, and the created Account has no role. -/
theorem c4_register_validation (db : DB) (b : RegisterBody) :
    ((falsy b.name || falsy b.email || falsy b.password) = true →
      auth_register db b = (.badRequest "name, email and password are required", db))
    ∧ ((falsy b.name || falsy b.email || falsy b.password) = false →
       db.users.any (fun w => w.email == normEmail (b.email.getD "")) = true →
       auth_register db b = (.conflict "email already registered", db))
    ∧ ((falsy b.name || falsy b.email || falsy b.password) = false →
       db.users.any (fun w => w.email == normEmail (b.email.getD "")) = false →
       '@' ∉ (normEmail (b.email.getD "")).data →
       auth_register db b = (.modelError "Invalid email format", db))
    ∧ ((falsy b.name || falsy b.email || falsy b.password) = false →
       db.users.any (fun w => w.email == normEmail (b.email.getD "")) = false →
       '@' ∈ (normEmail (b.email.getD "")).data →
       (b.password.getD "").length < 6 →
       auth_register db b = (.modelError "Password must be at least 6 characters.", db))
    ∧ ((falsy b.name || falsy b.email || falsy b.password) = false →
       db.users.any (fun w => w.email == normEmail (b.email.getD "")) = false →
       '@' ∈ (normEmail (b.email.getD "")).data →
       ¬ (b.password.getD "").length < 6 →
       auth_register db b =
         (.created (registeredUser db b),
          { db with users := db.users ++ [registeredUser db b] })
       ∧ (registeredUser db b).role = none ∧ (registeredUser db b).phone = none) := by
  refine ⟨fun h1 => by simp [auth_register, h1],
          fun h1 h2 => by simp [auth_register, h1, h2],
          fun h1 h2 h3 => by simp [auth_register, h1, h2, h3],
          fun h1 h2 h3 h4 => by simp [auth_register, h1, h2, h3, h4],
          fun h1 h2 h3 h4 => ⟨by simp [auth_register, h1, h2, h3, h4, registeredUser],
                              rfl, rfl⟩⟩

/-- Claim C10: auth_register reads only the name, email and password keys of
the request body — two bodies agreeing on those three produce identical
results — and every account it creates has no role, service info or phone. -/
theorem c10_register_reads_only_credentials :
    (∀ (db : DB) (b1 b2 : RegisterBody), b1.name = b2.name → b1.email = b2.email →
      b1.password = b2.password → auth_register db b1 = auth_register db b2)
    ∧ (∀ (db : DB) (b : RegisterBody) (u : User) (db' : DB),
        auth_register db b = (.created u, db') →
        u.role = none ∧ u.service_type = none ∧ u.location = none ∧ u.phone = none) := by
  constructor
  · intro db b1 b2 h1 h2 h3
    simp only [auth_register, h1, h2, h3]
  · intro db b u db' h
    obtain ⟨-, -, -, -, -, -, hu, -⟩ := auth_register_created h
    rw [hu]
    exact ⟨rfl, rfl, rfl, rfl⟩

/-- Claim C6: email uniqueness is case-insensitive — after a successful
registration, any second registration whose email normalises to the same
string (in particular one differing only in letter case) fails with 409
ConflictError and leaves the store unchanged. -/
theorem c6_email_case_insensitive_conflict {db db' : DB} {b1 b2 : RegisterBody}
    {u : User} (hreg : auth_register db b1 = (.created u, db'))
    (hemail : b2.email.map normEmail = b1.email.map normEmail)
    (hname : falsy b2.name = false) (hpw : falsy b2.password = false) :
    auth_register db' b2 = (.conflict "email already registered", db') := by
  obtain ⟨hn1, he1, hp1, hany, hat, hlen, hu, hdb⟩ := auth_register_created hreg
  obtain ⟨s1, hs1⟩ : ∃ s1, b1.email = some s1 := by
    cases hb : b1.email
    · rw [hb] at he1; simp [falsy] at he1
    · exact ⟨_, rfl⟩
  obtain ⟨s2, hs2, hnorm⟩ : ∃ s2, b2.email = some s2 ∧ normEmail s2 = normEmail s1 := by
    rw [hs1] at hemail
    cases hb : b2.email
    · rw [hb] at hemail; simp at hemail
    · rw [hb] at hemail
      simp at hemail
      exact ⟨_, rfl, hemail⟩
  rw [hs1] at hat
  simp only [Option.getD_some] at hat
  have hs2ne : falsy b2.email = false := by
    rw [hs2]
    simp only [falsy, beq_eq_false_iff_ne, ne_eq]
    intro hempty
    rw [hempty] at hnorm
    rw [show normEmail "" = "" from rfl] at hnorm
    rw [← hnorm] at hat
    exact absurd hat (by decide)
  have hcond : (falsy b2.name || falsy b2.email || falsy b2.password) = false := by
    rw [hname, hs2ne, hpw]; rfl
  have huemail : u.email = normEmail s1 := by rw [hu]; simp [registeredUser, hs1]
  have hany2 : db'.users.any (fun w => w.email == normEmail (b2.email.getD "")) = true := by
    rw [hdb]
    simp only [List.any_append, Bool.or_eq_true, List.any_cons, List.any_nil,
      Bool.or_false]
    right
    rw [hs2]
    simp only [Option.getD_some, huemail, hnorm, beq_self_eq_true]
  simp [auth_register, hcond, hany2]

/-- Claim C7: a successful registration followed by a login with the same
credentials yields a bearer token that resolves back to exactly the account
identifier register returned. -/
theorem c7_register_login_roundtrip {db db' : DB} {b : RegisterBody} {u : User}
    (hreg : auth_register db b = (.created u, db')) :
    auth_login db' b.email b.password = .ok (create_access_token u.id) u ∧
    (users_me db' (create_access_token u.id)).map (·.id) = some u.id := by
  obtain ⟨hn1, he1, hp1, hany, hat, hlen, hu, hdb⟩ := auth_register_created hreg
  have huemail : u.email = normEmail (b.email.getD "") := by rw [hu]; rfl
  have hupw : u.password_hash = generate_password_hash (b.password.getD "") := by
    rw [hu]; rfl
  have hfind1 : db.users.find? (fun w => w.email == normEmail (b.email.getD "")) = none := by
    rw [List.find?_eq_none]
    intro x hx
    exact fun hbeq => by
      rw [List.any_eq_false] at hany
      exact hany x hx hbeq
  have hfindu : db'.users.find? (fun w => w.email == normEmail (b.email.getD "")) = some u := by
    rw [hdb]
    simp only
    rw [find?_append_of_none _ hfind1, List.find?_cons_of_pos]
    rw [huemail]
    exact beq_self_eq_true _
  have hcheck : check_password_hash u.password_hash (b.password.getD "") = true := by
    rw [hupw, check_password_hash]
    exact beq_self_eq_true _
  constructor
  · simp [auth_login, he1, hp1, hfindu, hcheck]
  · have hfindid : db'.users.find? (fun w => w.id == get_jwt_identity (create_access_token u.id)) = some u := by
      rw [hdb]
      simp only
      rw [find?_append_of_none]
      · rw [List.find?_cons_of_pos]
        exact beq_self_eq_true _
      · rw [List.find?_eq_none]
        intro x hx hbeq
        have hlt : x.id < nextUserId db.users := mem_id_lt_nextUserId hx
        have : x.id = u.id := by
          simpa [get_jwt_identity, create_access_token] using hbeq
        rw [hu] at this
        simp only [registeredUser] at this
        omega
    rw [users_me, hfindid]
    rfl

/-- Claim C9: auth_login answers the identical 401 response — error string
"invalid credentials" — both for an email not in the store and for a known
email with a non-matching password, so the response does not reveal whether
the email is registered. -/
theorem c9_login_failure_uniform (db : DB) (e1 p1 e2 p2 : Option String)
    (h1 : falsy e1 = false) (h2 : falsy p1 = false)
    (h3 : falsy e2 = false) (h4 : falsy p2 = false)
    (hunknown : db.users.find? (fun w => w.email == normEmail (e1.getD "")) = none)
    (hwrong : ∀ w, db.users.find? (fun w2 => w2.email == normEmail (e2.getD "")) = some w →
        check_password_hash w.password_hash (p2.getD "") = false) :
    auth_login db e1 p1 = .unauthorized "invalid credentials" ∧
    auth_login db e1 p1 = auth_login db e2 p2 := by
  have hA : auth_login db e1 p1 = .unauthorized "invalid credentials" := by
    simp [auth_login, h1, h2, hunknown]
  refine ⟨hA, ?_⟩
  rw [hA]
  cases hf : db.users.find? (fun w2 => w2.email == normEmail (e2.getD "")) with
  | none => simp [auth_login, h3, h4, hf]
  | some w => simp [auth_login, h3, h4, hf, hwrong w hf]

/-- Claim C1: after every committed SubmitRating for a provider, the stored
aggregate rating equals the arithmetic mean of the scores of all rating rows
currently referencing that provider, rounded to fixed precision (2 decimal
places), and that value is also what the handler returns; the mean of an
empty rating set is 0. -/
theorem c1_submit_rating_recomputes_aggregate {db : DB} {pid uid : ℕ}
    {v : Option JVal} {c : String} {q : ℚ} {db' : DB}
    (h : rate_provider db pid uid v c = (.created q, db')) :
    (db'.providers.find? (fun p => p.id == pid)).map (·.rating) =
      some (some (pyRound 2 (meanQ
        ((db'.ratings.filter (fun r => r.provider_id == pid)).map (·.score)))))
    ∧ q = pyRound 2 (meanQ
        ((db'.ratings.filter (fun r => r.provider_id == pid)).map (·.score)))
    ∧ meanQ [] = 0 := by
  obtain ⟨w, n, p, hv, hn, hr, hp, hus, hrs, hq, hps⟩ := rate_provider_created h
  have hpid : p.id = pid := by simpa using List.find?_some hp
  rw [hpid] at hq hps
  refine ⟨?_, hq, by decide⟩
  rw [hps, find?_setProviderRating, hp, hq]
  rfl

/-- Claim C2: a committed SubmitRating preserves the at-most-one-rating-per-
(provider, rater) invariant, leaves exactly one row for the submitted key,
and that row carries the submitted (coerced) score and comment: a second
submission by the same rater overwrites the existing row in place instead of
inserting a duplicate. -/
theorem c2_rating_upsert_unique {db : DB} {pid uid : ℕ}
    {v : Option JVal} {c : String} {q : ℚ} {db' : DB}
    (h : rate_provider db pid uid v c = (.created q, db'))
    (hinv : ∀ p u, countPR db.ratings p u ≤ 1) :
    (∀ p u, countPR db'.ratings p u ≤ 1)
    ∧ countPR db'.ratings pid uid = 1
    ∧ ∀ r ∈ db'.ratings, r.provider_id = pid → r.user_id = uid →
        some r.score = v.bind pyInt ∧ r.comment = c := by
  obtain ⟨w, n, p, hv, hn, hr, hp, hus, hrs, hq, hps⟩ := rate_provider_created h
  have hpid : p.id = pid := by simpa using List.find?_some hp
  rw [hpid] at hrs
  have hbind : v.bind pyInt = some n := by rw [hv]; exact hn
  by_cases hex : db.ratings.any (fun r => r.provider_id == pid && r.user_id == uid) = true
  · rw [if_pos hex] at hrs
    refine ⟨?_, ?_, ?_⟩
    · intro a b
      rw [hrs, countPR_updateRating]
      exact hinv a b
    · rw [hrs, countPR_updateRating]
      have h1 := countPR_pos hex
      have h2 := hinv pid uid
      omega
    · intro r hrmem hp' hu'
      rw [hrs] at hrmem
      have hkey := updateRating_key_mem (hinv pid uid) r hrmem hp' hu'
      rw [hbind, hkey.1]
      exact ⟨rfl, hkey.2⟩
  · have hexf : db.ratings.any (fun r => r.provider_id == pid && r.user_id == uid) = false :=
      by rwa [Bool.not_eq_true] at hex
    rw [if_neg hex] at hrs
    refine ⟨?_, ?_, ?_⟩
    · intro a b
      rw [hrs, countPR_append]
      by_cases hk : pid = a ∧ uid = b
      · obtain ⟨rfl, rfl⟩ := hk
        have h0 : countPR db.ratings pid uid = 0 := countPR_eq_zero hexf
        have h1 : countPR [Rating.mk (nextRatingId db.ratings) pid uid n c] pid uid = 1 := by
          simp [countPR, List.filter]
        omega
      · have h1 : countPR [Rating.mk (nextRatingId db.ratings) pid uid n c] a b = 0 := by
          have hfalse : ((pid == a) && (uid == b)) = false := by
            cases not_and_or.mp hk with
            | inl h => simp [beq_eq_false_iff_ne, h]
            | inr h => simp [beq_eq_false_iff_ne, h]
          simp [countPR, List.filter, hfalse]
        rw [h1]
        have := hinv a b
        omega
    · rw [hrs, countPR_append, countPR_eq_zero hexf]
      simp [countPR, List.filter]
    · intro r hrmem hp' hu'
      rw [hrs] at hrmem
      rcases List.mem_append.mp hrmem with hin | hnew
      · exfalso
        rw [List.any_eq_false] at hexf
        exact hexf r hin (by simp [hp', hu'])
      · rw [List.mem_singleton] at hnew
        subst hnew
        rw [hbind]
        exact ⟨rfl, rfl⟩

/-- Claim C3 names the intended behaviour but the code deviates: a JSON
score of 3.5 is not rejected — `int(score)` truncates it to 3, the call
succeeds and a rating row with score 3 is persisted, contradicting the
handler's own docstring and error message ("score must be an integer
between 1 and 5"). -/
theorem c3_float_score_truncated_and_persisted :
    (rate_provider dbC3 1 10 (some (.jfloat (mkRat 7 2))) "").1 = .created 3 ∧
    (rate_provider dbC3 1 10 (some (.jfloat (mkRat 7 2))) "").2.ratings =
      [{ id := 1, provider_id := 1, user_id := 10, score := 3, comment := "" }] := by
  decide

/-- Claim C5 is false as stated: the review entries returned by get_provider
carry the rater's user id, not the rater's display name — two stores that
differ only in the rater's display name produce identical provider views, so
the view cannot include that name. -/
theorem c5_review_lacks_rater_name :
    get_provider dbC5a 1 = get_provider dbC5b 1 ∧
    (get_provider dbC5a 1).map (·.reviews) =
      some [{ id := 1, score := 5, comment := "great", user_id := 10 }] := by
  decide

/-- Claim C5 (amended): get_provider fails with 404 exactly when no row of
the provider table has the requested id, and otherwise returns the provider
view whose reviews are precisely the current rating rows referencing that
provider, each carrying the rating id, score, comment and the rater's user
id (not the rater's display name). -/
theorem c5_provider_view (db : DB) (pid : ℕ) :
    (get_provider db pid = none ↔ ∀ p ∈ db.providers, p.id ≠ pid)
    ∧ (∀ view, get_provider db pid = some view →
        ∀ rv, rv ∈ view.reviews ↔ ∃ r ∈ db.ratings, r.provider_id = pid ∧
          rv = { id := r.id, score := r.score, comment := r.comment,
                 user_id := r.user_id }) := by
  cases hf : db.providers.find? (fun p => p.id == pid) with
  | none =>
    constructor
    · constructor
      · intro _ p hp hpid
        rw [List.find?_eq_none] at hf
        exact hf p hp (by simp [hpid])
      · intro _
        rw [get_provider, hf]
    · intro view hview
      rw [get_provider, hf] at hview
      cases hview
  | some p =>
    have hpid : p.id = pid := by simpa using List.find?_some hf
    constructor
    · constructor
      · intro hnone
        rw [get_provider, hf] at hnone
        cases hnone
      · intro hall
        exact absurd hpid (hall p (List.mem_of_find?_eq_some hf))
    · intro view hview rv
      rw [get_provider, hf] at hview
      simp only [Option.some.injEq] at hview
      rw [← hview]
      simp only []
      rw [List.mem_map]
      constructor
      · rintro ⟨r, hrf, hrv⟩
        obtain ⟨hrmem, hrp⟩ := List.mem_filter.mp hrf
        refine ⟨r, hrmem, ?_, hrv.symm⟩
        rw [← hpid]
        simpa using hrp
      · rintro ⟨r, hrmem, hrp, hrv⟩
        exact ⟨r, List.mem_filter.mpr ⟨hrmem, by simp [hrp, hpid]⟩, hrv.symm⟩

theorem c1_submit_rating_witness :
    (dbC1'.providers.find? (fun p => p.id == 7)).map (·.rating) =
      some (some (pyRound 2 (meanQ
        ((dbC1'.ratings.filter (fun r => r.provider_id == 7)).map (·.score)))))
    ∧ (4 : ℚ) = pyRound 2 (meanQ
        ((dbC1'.ratings.filter (fun r => r.provider_id == 7)).map (·.score)))
    ∧ meanQ [] = 0 :=
  c1_submit_rating_recomputes_aggregate
    (by decide : rate_provider dbC1 7 22 (some (JVal.jint 3)) "z" =
      (RateOutcome.created 4, dbC1'))

theorem c2_upsert_witness :
    countPR dbC2'.ratings 7 20 = 1 ∧
    (some (Rating.mk 1 7 20 2 "second").score = (some (JVal.jint 2)).bind pyInt ∧
      (Rating.mk 1 7 20 2 "second").comment = "second") :=
  ⟨(c2_rating_upsert_unique
      (by decide : rate_provider dbC2 7 20 (some (JVal.jint 2)) "second" =
        (RateOutcome.created 2, dbC2'))
      (fun p u => le_trans (List.length_filter_le _ _) (by decide))).2.1,
   (c2_rating_upsert_unique
      (by decide : rate_provider dbC2 7 20 (some (JVal.jint 2)) "second" =
        (RateOutcome.created 2, dbC2'))
      (fun p u => le_trans (List.length_filter_le _ _) (by decide))).2.2
      (Rating.mk 1 7 20 2 "second") (by decide) rfl rfl⟩

/-- Claim C4 is false as stated: a register request whose role is "admin"
(not in {client, provider}) and whose phone is absent does not fail with a
ValidationError — the handler never reads the role, and the account is
created. -/
theorem c4_unknown_role_creates_account :
    (auth_register emptyDB regBodyBadRole).1 =
      .created { id := 1, name := "Ann", email := "ann@x.com"
                 password_hash := "pbkdf2$secret1", role := none
                 service_type := none, location := none, phone := none } := by
  decide

theorem c4_register_validation_witness :
    auth_register emptyDB regBodyNoPw =
      (.badRequest "name, email and password are required", emptyDB)
    ∧ auth_register dbC5a regBodyConflict = (.conflict "email already registered", dbC5a)
    ∧ auth_register emptyDB regBodyBadEmail = (.modelError "Invalid email format", emptyDB)
    ∧ auth_register emptyDB regBodyShortPw =
      (.modelError "Password must be at least 6 characters.", emptyDB)
    ∧ (auth_register emptyDB regBodyOk =
        (.created (registeredUser emptyDB regBodyOk),
         { emptyDB with users := emptyDB.users ++ [registeredUser emptyDB regBodyOk] })
       ∧ (registeredUser emptyDB regBodyOk).role = none
       ∧ (registeredUser emptyDB regBodyOk).phone = none) :=
  ⟨(c4_register_validation emptyDB regBodyNoPw).1 (by decide),
   (c4_register_validation dbC5a regBodyConflict).2.1 (by decide) (by decide),
   (c4_register_validation emptyDB regBodyBadEmail).2.2.1 (by decide) (by decide) (by decide),
   (c4_register_validation emptyDB regBodyShortPw).2.2.2.1
     (by decide) (by decide) (by decide) (by decide),
   (c4_register_validation emptyDB regBodyOk).2.2.2.2
     (by decide) (by decide) (by decide) (by decide)⟩

theorem c5_provider_view_witness :
    (ReviewView.mk 1 5 "great" 10) ∈ viewC5.reviews ↔
      ∃ r ∈ dbC5a.ratings, r.provider_id = 1 ∧
        (ReviewView.mk 1 5 "great" 10) =
          { id := r.id, score := r.score, comment := r.comment, user_id := r.user_id } :=
  (c5_provider_view dbC5a 1).2 viewC5 (by decide) (ReviewView.mk 1 5 "great" 10)

theorem c6_case_insensitive_witness :
    auth_register dbFirst bSecond = (.conflict "email already registered", dbFirst) :=
  c6_email_case_insensitive_conflict
    (by decide : auth_register emptyDB bFirst = (RegOutcome.created uFirst, dbFirst))
    (by decide) (by decide) (by decide)

theorem c7_roundtrip_witness :
    auth_login dbReg7 bReg7.email bReg7.password = .ok (create_access_token uReg7.id) uReg7
    ∧ (users_me dbReg7 (create_access_token uReg7.id)).map (·.id) = some uReg7.id :=
  c7_register_login_roundtrip
    (by decide : auth_register emptyDB bReg7 = (RegOutcome.created uReg7, dbReg7))

/-- Claim C8 is false as stated: SubmitRating's recomputation rounds the
mean to 2 decimal places while the User.rating property rounds it to 1;
on scores [5, 5, 4] they give 4.67 and 4.7, which differ. -/
theorem c8_roundings_differ : appAggregate [5, 5, 4] ≠ modelAggregate [5, 5, 4] := by
  decide

/-- Claim C8 (amended): the handler's stored aggregate and the model
property's aggregate agree on every score multiset whose mean is an integer
multiple of one tenth — in particular on the empty set and on sets such as
[5, 4, 3] — but not in general, since the former rounds the mean to 2 decimal
places and the latter to 1. -/
theorem c8_aggregates_agree_on_tenths (scores : List ℤ)
    (h : (meanQ scores).den ∣ 10) : appAggregate scores = modelAggregate scores := by
  by_cases hs : scores = []
  · subst hs; decide
  · unfold appAggregate modelAggregate
    rw [if_neg hs]
    have hmean : meanQ scores = mkRat scores.sum scores.length := by
      unfold meanQ; rw [if_neg hs]
    rw [pyRound_eq_self 2 _ (h.trans (by norm_num)), hmean,
        pyRound_eq_self 1 _ (by rw [← hmean]; simpa using h)]

theorem c8_aggregates_witness :
    (meanQ [5, 4, 3]).den ∣ 10 ∧ appAggregate [5, 4, 3] = modelAggregate [5, 4, 3] :=
  ⟨by decide, c8_aggregates_agree_on_tenths [5, 4, 3] (by decide)⟩

theorem c9_login_failure_witness :
    auth_login dbC9 (some "ghost@x.com") (some "pw1234") = .unauthorized "invalid credentials"
    ∧ auth_login dbC9 (some "ghost@x.com") (some "pw1234") =
        auth_login dbC9 (some "alice@x.com") (some "wrong1") :=
  c9_login_failure_uniform dbC9 (some "ghost@x.com") (some "pw1234")
    (some "alice@x.com") (some "wrong1")
    (by decide) (by decide) (by decide) (by decide) (by decide)
    (fun w hw => by
      have h2 : some aliceUser = some w := by
        rw [← hw]; decide
      cases h2
      decide)

theorem c10_reads_only_credentials_witness :
    auth_register emptyDB bodyWithRole = auth_register emptyDB bodyNoRole
    ∧ (uReg10.role = none ∧ uReg10.service_type = none ∧ uReg10.location = none ∧
       uReg10.phone = none) :=
  ⟨c10_register_reads_only_credentials.1 emptyDB bodyWithRole bodyNoRole rfl rfl rfl,
   c10_register_reads_only_credentials.2 emptyDB bodyWithRole uReg10 dbReg10
     (by decide : auth_register emptyDB bodyWithRole = (RegOutcome.created uReg10, dbReg10))⟩

end SasaFix
